import Mathlib

/-!
Verification of the fault-detection dashboard's technical report renderer.

This file is a shallow embedding of the report-generation code
(`BearingReportGenerator` / `ReportGenerator` components): the severity
classifier, velocity-color bucketing, the spectrum (FFT) chart renderer,
the synthetic data generator, the data tables, the chart-gallery
pagination loop and the output filename construction.  Machine numbers
are modelled as exact rationals; the JavaScript random source
(`Math.random()`) is modelled as an explicit stream of rationals passed
to each randomized definition; the PDF surface is modelled as a list of
drawing commands.
-/

/-- RGB color triplet, as the `[r, g, b]` arrays in the source. -/
structure Color where
  r : Nat
  g : Nat
  b : Nat
deriving DecidableEq, Repr

/-- Severity code A–D, the keys of `SEVERITY_COLORS`. -/
inductive Severity where
  | A | B | C | D
deriving DecidableEq, Repr

/-- Ordinal level of a severity code, the `level` field of `SEVERITY_COLORS`. -/
def Severity.level : Severity → Nat
  | .A => 1
  | .B => 2
  | .C => 3
  | .D => 4

/-- Canonical color of a severity code, the `bg` field of `SEVERITY_COLORS`. -/
def Severity.color : Severity → Color
  | .A => ⟨16, 185, 129⟩
  | .B => ⟨6, 182, 212⟩
  | .C => ⟨245, 158, 11⟩
  | .D => ⟨239, 68, 68⟩

/-- Human description of a severity code, the `text` field of `SEVERITY_COLORS`. -/
def Severity.desc : Severity → String
  | .A => "Normal"
  | .B => "Satisfactory"
  | .C => "Alert"
  | .D => "Unacceptable"

/-- JavaScript `a || b` on an optional string: `undefined`, `null` and the
empty string are falsy, any other string is returned unchanged. -/
def jsOr (a : Option String) (b : String) : String :=
  match a with
  | none => b
  | some s => if s = "" then b else s

/-- JavaScript `String.prototype.toLowerCase`, modelled characterwise. -/
def jsToLower (s : String) : String :=
  String.mk (s.data.map Char.toLower)

/-- JavaScript `String.prototype.substring(0, n)`. -/
def jsSubstring (s : String) (n : Nat) : String :=
  String.mk (s.data.take n)

/-- Source `getStatusSeverity`: lowercases the (possibly undefined) status
label and maps the recognized tokens to A/B/C/D, anything else to A. -/
def getStatusSeverity (status : Option String) : Severity :=
  let s := jsToLower (jsOr status "")
  if s = "normal" then .A
  else if s = "satisfactory" then .B
  else if s = "alert" then .C
  else if s = "unacceptable" ∨ s = "unsatisfactory" then .D
  else .A

/-- The five status tokens recognized by `getStatusSeverity`. -/
def recognizedTokens : List String :=
  ["normal", "satisfactory", "alert", "unacceptable", "unsatisfactory"]

/-- Source `getVelocityColor`: buckets a numeric velocity against the
fixed thresholds 7.1, 4.5, 2.8. -/
def getVelocityColor (v : ℚ) : Color :=
  if v > 7.1 then ⟨239, 68, 68⟩
  else if v > 4.5 then ⟨251, 146, 60⟩
  else if v > 2.8 then ⟨245, 158, 11⟩
  else ⟨16, 185, 129⟩

/- Helper lemmas on the JS string primitives. -/

lemma jsOr_none (d : String) : jsOr none d = d := rfl

lemma jsOr_some_ne (s d : String) (hs : s ≠ "") : jsOr (some s) d = s := by
  simp [jsOr, hs]

lemma jsOr_some_nil (d : String) : jsOr (some "") d = d := rfl

lemma jsToLower_nil : jsToLower "" = "" := rfl

lemma jsOr_ne_nil (a : Option String) (d : String) (hd : d ≠ "") : jsOr a d ≠ "" := by
  match a with
  | none => simpa [jsOr]
  | some s =>
    by_cases hs : s = "" <;> simp [jsOr, hs, hd]

/-- Unrecognized (after lowercasing) labels fall through every branch of the
classifier to the default `A`. -/
lemma getStatusSeverity_unrecognized (s : String)
    (h : jsToLower s ∉ recognizedTokens) : getStatusSeverity (some s) = Severity.A := by
  by_cases hs : s = ""
  · subst hs; rfl
  · simp only [recognizedTokens, List.mem_cons, List.mem_singleton, not_or] at h
    obtain ⟨h1, h2, h3, h4, h5, -⟩ := h
    unfold getStatusSeverity
    rw [jsOr_some_ne s "" hs]
    simp [h1, h2, h3, h4, h5]

/-- C1: for every status label (any letter case, possibly undefined or
empty), `getStatusSeverity` yields exactly one of the four severity codes;
"normal" gives level 1, "satisfactory" level 2, "alert" level 3,
"unacceptable"/"unsatisfactory" level 4, and every unrecognized, empty or
undefined label gives level 1. -/
theorem c1_status_severity_classification (status : Option String) :
    (getStatusSeverity status = Severity.A ∨ getStatusSeverity status = Severity.B ∨
      getStatusSeverity status = Severity.C ∨ getStatusSeverity status = Severity.D)
    ∧ Severity.level Severity.A = 1 ∧ Severity.level Severity.B = 2
    ∧ Severity.level Severity.C = 3 ∧ Severity.level Severity.D = 4
    ∧ (∀ s, status = some s → jsToLower s = "normal" →
        getStatusSeverity status = Severity.A)
    ∧ (∀ s, status = some s → jsToLower s = "satisfactory" →
        getStatusSeverity status = Severity.B)
    ∧ (∀ s, status = some s → jsToLower s = "alert" →
        getStatusSeverity status = Severity.C)
    ∧ (∀ s, status = some s →
        (jsToLower s = "unacceptable" ∨ jsToLower s = "unsatisfactory") →
        getStatusSeverity status = Severity.D)
    ∧ (∀ s, status = some s → jsToLower s ∉ recognizedTokens →
        getStatusSeverity status = Severity.A)
    ∧ (status = none → getStatusSeverity status = Severity.A)
    ∧ (status = some "" → getStatusSeverity status = Severity.A) := by
  have hne : ∀ (s : String) (t : String), t ≠ "" → jsToLower s = t → s ≠ "" := by
    intro s t ht h hs
    subst hs
    rw [jsToLower_nil] at h
    exact ht h.symm
  refine ⟨?_, rfl, rfl, rfl, rfl, ?_, ?_, ?_, ?_, ?_, ?_, ?_⟩
  · cases h : getStatusSeverity status <;> simp
  · rintro s rfl h
    have hs := hne s "normal" (by decide) h
    unfold getStatusSeverity
    rw [jsOr_some_ne s "" hs, h]
    decide
  · rintro s rfl h
    have hs := hne s "satisfactory" (by decide) h
    unfold getStatusSeverity
    rw [jsOr_some_ne s "" hs, h]
    decide
  · rintro s rfl h
    have hs := hne s "alert" (by decide) h
    unfold getStatusSeverity
    rw [jsOr_some_ne s "" hs, h]
    decide
  · rintro s rfl h
    have hs : s ≠ "" := by
      rcases h with h | h
      · exact hne s "unacceptable" (by decide) h
      · exact hne s "unsatisfactory" (by decide) h
    unfold getStatusSeverity
    rw [jsOr_some_ne s "" hs]
    rcases h with h | h <;> rw [h] <;> decide
  · rintro s rfl h
    exact getStatusSeverity_unrecognized s h
  · rintro rfl; rfl
  · rintro rfl; rfl

/-- Witness for C1 at concrete labels: a mixed-case recognized token,
a level-4 synonym, an unrecognized label, and the undefined label. -/
theorem c1_status_severity_classification_witness :
    getStatusSeverity (some "NORMAL") = Severity.A
    ∧ getStatusSeverity (some "Unsatisfactory") = Severity.D
    ∧ getStatusSeverity (some "broken") = Severity.A
    ∧ getStatusSeverity none = Severity.A := by
  refine ⟨?_, ?_, ?_, ?_⟩
  · exact (c1_status_severity_classification (some "NORMAL")).2.2.2.2.2.1
      "NORMAL" rfl (by decide)
  · exact (c1_status_severity_classification (some "Unsatisfactory")).2.2.2.2.2.2.2.2.1
      "Unsatisfactory" rfl (Or.inr (by decide))
  · exact (c1_status_severity_classification (some "broken")).2.2.2.2.2.2.2.2.2.1
      "broken" rfl (by decide)
  · exact (c1_status_severity_classification none).2.2.2.2.2.2.2.2.2.2.1 rfl

/-- C4 counterexample: at velocity 5 (inside the 4.5 < v ≤ 7.1 bucket) the
code returns the orange triplet [251, 146, 60], which is not the canonical
level-3 severity color [245, 158, 11], so the claim that each bucket's
color is the canonical color triplet of that severity level is false. -/
theorem c4_counterexample_velocity_color :
    ((4.5 : ℚ) < 5 ∧ (5 : ℚ) ≤ 7.1)
    ∧ getVelocityColor 5 = ⟨251, 146, 60⟩
    ∧ Severity.C.color = ⟨245, 158, 11⟩
    ∧ getVelocityColor 5 ≠ Severity.C.color
    ∧ (∀ sev : Severity, sev.color ≠ ⟨251, 146, 60⟩) := by
  refine ⟨by norm_num, by norm_num [getVelocityColor], rfl, ?_, ?_⟩
  · norm_num [getVelocityColor, Severity.color]
  · intro sev; cases sev <;> simp [Severity.color]

/-- C4 as amended: the thresholds bucket exactly as claimed, the level-4
and level-1 buckets use the canonical severity colors, but the
4.5 < v ≤ 7.1 bucket uses an orange triplet [251, 146, 60] that is not any
canonical severity color, and the 2.8 < v ≤ 4.5 bucket uses the canonical
level-3 (not level-2) color. -/
theorem c4_velocity_color_buckets (v : ℚ) :
    (7.1 < v → getVelocityColor v = Severity.D.color)
    ∧ (4.5 < v → v ≤ 7.1 →
        getVelocityColor v = ⟨251, 146, 60⟩
        ∧ ∀ sev : Severity, sev.color ≠ getVelocityColor v)
    ∧ (2.8 < v → v ≤ 4.5 → getVelocityColor v = Severity.C.color)
    ∧ (v ≤ 2.8 → getVelocityColor v = Severity.A.color) := by
  refine ⟨?_, ?_, ?_, ?_⟩
  · intro h
    rw [getVelocityColor, if_pos h]; rfl
  · intro h1 h2
    have hv : getVelocityColor v = ⟨251, 146, 60⟩ := by
      rw [getVelocityColor, if_neg (by linarith), if_pos h1]
    refine ⟨hv, ?_⟩
    intro sev
    rw [hv]
    cases sev <;> simp [Severity.color]
  · intro h1 h2
    rw [getVelocityColor, if_neg (by linarith), if_neg (by linarith), if_pos h1]; rfl
  · intro h
    rw [getVelocityColor, if_neg (by linarith), if_neg (by linarith),
      if_neg (by linarith)]; rfl

/-- Witness for C4 as amended, one velocity per bucket. -/
theorem c4_velocity_color_buckets_witness :
    getVelocityColor 8 = Severity.D.color
    ∧ getVelocityColor 5 = ⟨251, 146, 60⟩
    ∧ getVelocityColor 3 = Severity.C.color
    ∧ getVelocityColor 1 = Severity.A.color :=
  ⟨(c4_velocity_color_buckets 8).1 (by norm_num),
   ((c4_velocity_color_buckets 5).2.1 (by norm_num) (by norm_num)).1,
   (c4_velocity_color_buckets 3).2.2.1 (by norm_num) (by norm_num),
   (c4_velocity_color_buckets 1).2.2.2 (by norm_num)⟩

/-! Spectrum (FFT) chart renderer, from `drawFFTChart`.  The jsPDF surface
is modelled as a list of drawing commands emitted in source order. -/

/-- One point of a spectrum series, the `{ freq, amplitude }` objects. -/
structure FreqPoint where
  freq : ℚ
  amplitude : ℚ
deriving DecidableEq, Repr

/-- Drawing command issued to the PDF surface. -/
inductive Cmd where
  | setFillColor : Color → Cmd
  | setDrawColor : Color → Cmd
  | setTextColor : Color → Cmd
  | setLineWidth : ℚ → Cmd
  | setFontSize : ℚ → Cmd
  | setFont : String → String → Cmd
  | fillRect : ℚ → ℚ → ℚ → ℚ → Cmd
  | strokeRect : ℚ → ℚ → ℚ → ℚ → Cmd
  | text : String → ℚ → ℚ → Cmd
  | line : ℚ → ℚ → ℚ → ℚ → Cmd
deriving DecidableEq, Repr

/-- Source `Math.max(...fftData.map(d => d.amplitude))`: the running max of
the amplitudes (the empty case is unreachable, the caller guards on
`fftData.length > 0`). -/
def fftMaxRaw : List FreqPoint → ℚ
  | [] => 0
  | p :: ps => (ps.map (·.amplitude)).foldl max p.amplitude

/-- Source `Math.max(...) || 1`: a zero maximum is replaced by 1. -/
def fftMaxAmplitude (data : List FreqPoint) : ℚ :=
  if fftMaxRaw data = 0 then 1 else fftMaxRaw data

/-- Screen position of the i-th spectrum point inside `drawFFTChart`:
`scaleX = width / fftData.length`, `scaleY = (height - 10) / maxAmplitude`,
point i drawn at `(x + i * scaleX, y + height - 5 - amplitude * scaleY)`. -/
def fftPointPos (data : List FreqPoint) (x y width height : ℚ) (i : Nat) : ℚ × ℚ :=
  let maxAmplitude := fftMaxAmplitude data
  let scaleX := width / (data.length : ℚ)
  let scaleY := (height - 10) / maxAmplitude
  let amp := ((data[i]?).map (·.amplitude)).getD 0
  (x + (i : ℚ) * scaleX, y + height - 5 - amp * scaleY)

/-- Polyline of `drawFFTChart`: one `pdf.line` per i in `1 ≤ i < length`. -/
def fftPolyline (data : List FreqPoint) (x y width height : ℚ) : List Cmd :=
  (List.range' 1 (data.length - 1)).map (fun i =>
    Cmd.line (fftPointPos data x y width height (i - 1)).1
      (fftPointPos data x y width height (i - 1)).2
      (fftPointPos data x y width height i).1
      (fftPointPos data x y width height i).2)

/-- Horizontal grid loop of `drawFFTChart`: `for (let i = 1; i < 5; i++)`. -/
def hGridLines (x y width height : ℚ) : List Cmd :=
  (List.range' 1 4).map (fun i =>
    Cmd.line x (y + height / 5 * (i : ℚ)) (x + width) (y + height / 5 * (i : ℚ)))

/-- Vertical grid loop of `drawFFTChart`: `for (let i = 1; i < 10; i++)`. -/
def vGridLines (x y width height : ℚ) : List Cmd :=
  (List.range' 1 9).map (fun i =>
    Cmd.line (x + width / 10 * (i : ℚ)) y (x + width / 10 * (i : ℚ)) (y + height))

/-- Source `drawFFTChart(pdf, fftData, x, y, width, height, title, color)`,
command for command: background panel, border, title, grid, the data
polyline when the series is non-empty, then axis and tick labels. -/
def drawFFTChart (data : List FreqPoint) (x y width height : ℚ)
    (title : String) (color : Color) : List Cmd :=
  [Cmd.setFillColor ⟨250, 250, 250⟩, Cmd.fillRect x y width height,
   Cmd.setDrawColor ⟨200, 200, 200⟩, Cmd.setLineWidth 0.3,
   Cmd.strokeRect x y width height,
   Cmd.setFontSize 9, Cmd.setFont "helvetica" "bold",
   Cmd.setTextColor ⟨30, 41, 59⟩, Cmd.text title (x + 5) (y - 3),
   Cmd.setDrawColor ⟨230, 230, 230⟩, Cmd.setLineWidth 0.1]
  ++ hGridLines x y width height
  ++ vGridLines x y width height
  ++ (if 0 < data.length then
        [Cmd.setDrawColor color, Cmd.setLineWidth 0.5]
          ++ fftPolyline data x y width height
      else [])
  ++ [Cmd.setFontSize 7, Cmd.setTextColor ⟨100, 100, 100⟩,
      Cmd.text "Frequency (Hz)" (x + width / 2) (y + height + 5),
      Cmd.text "Vel" (x - 3) (y + height / 2),
      Cmd.setFontSize 6,
      Cmd.text "0" x (y + height + 3),
      Cmd.text "500" (x + width / 2) (y + height + 3),
      Cmd.text "1000" (x + width) (y + height + 3)]

/-- Screen placement formula asserted by the spec, for comparison with
`fftPointPos`: `screenX = originX + (freq/maxFreq)*width`,
`screenY = originY + height - (amplitude/maxAmplitude)*height`. -/
def specScreenPos (originX originY width height maxFreq maxAmp freq amp : ℚ) : ℚ × ℚ :=
  (originX + (freq / maxFreq) * width, originY + height - (amp / maxAmp) * height)

/-- A command is a `line` draw. -/
def isLineCmd : Cmd → Bool
  | .line _ _ _ _ => true
  | _ => false

/-- A command is a horizontal line draw (same y, distinct x endpoints). -/
def isHorizLineCmd : Cmd → Bool
  | .line x1 y1 x2 y2 => if y1 = y2 ∧ x1 ≠ x2 then true else false
  | _ => false

/-- A command is a vertical line draw (same x, distinct y endpoints). -/
def isVertLineCmd : Cmd → Bool
  | .line x1 y1 x2 y2 => if x1 = x2 ∧ y1 ≠ y2 then true else false
  | _ => false

lemma isLineCmd_line (x1 y1 x2 y2 : ℚ) : isLineCmd (Cmd.line x1 y1 x2 y2) = true := rfl

lemma isHorizLineCmd_line (x1 y1 x2 y2 : ℚ) :
    isHorizLineCmd (Cmd.line x1 y1 x2 y2) = if y1 = y2 ∧ x1 ≠ x2 then true else false := rfl

lemma isVertLineCmd_line (x1 y1 x2 y2 : ℚ) :
    isVertLineCmd (Cmd.line x1 y1 x2 y2) = if x1 = x2 ∧ y1 ≠ y2 then true else false := rfl

/-- C3 counterexample: for the two-point series (0 Hz, amp 0), (500 Hz,
amp 1) on a panel at origin (0, 0), width 100, height 80, the renderer
places the second point at (50, 5) — the polyline command drawn is the
segment (0, 75)–(50, 5) — whereas the claimed formula
`screenY = originY + height - (amplitude/maxAmplitude)*height` puts it at
(50, 0).  The y-placement in the code reserves a 5-unit margin and scales
by height - 10, not by height. -/
theorem c3_counterexample_screen_placement :
    fftPointPos [⟨0, 0⟩, ⟨500, 1⟩] 0 0 100 80 1 = (50, 5)
    ∧ specScreenPos 0 0 100 80 1000 (fftMaxAmplitude [⟨0, 0⟩, ⟨500, 1⟩]) 500 1 = (50, 0)
    ∧ ((50 : ℚ), (5 : ℚ)) ≠ ((50 : ℚ), (0 : ℚ))
    ∧ Cmd.line 0 75 50 5 ∈ drawFFTChart [⟨0, 0⟩, ⟨500, 1⟩] 0 0 100 80 "FFT" ⟨59, 130, 246⟩ := by
  refine ⟨?_, ?_, by norm_num, ?_⟩
  · simp [fftPointPos, fftMaxAmplitude, fftMaxRaw]
    norm_num
  · simp [specScreenPos, fftMaxAmplitude, fftMaxRaw]
    norm_num
  · unfold drawFFTChart
    apply List.mem_append_left
    apply List.mem_append_right
    rw [if_pos (by decide)]
    apply List.mem_append_right
    simp [fftPolyline, fftPointPos, fftMaxAmplitude, fftMaxRaw, List.range']
    norm_num

/-- C3 as amended: the i-th point of a non-empty series is placed at
`screenX = originX + (i / N) * width` (index-proportional, not
frequency-proportional) and
`screenY = originY + height - 5 - (amplitude/maxAmplitude)*(height - 10)`,
where `maxAmplitude` is the maximum amplitude of that one series, taken as
1 when that maximum is 0 (so the scale divisor is never zero and is local
to the series); consecutive points are joined by `line` commands of
`drawFFTChart`. -/
theorem c3_spectrum_point_placement (data : List FreqPoint) (x y w h : ℚ)
    (t : String) (c : Color) (i : Nat) (hi : i < data.length) :
    fftPointPos data x y w h i
      = (x + ((i : ℚ) / (data.length : ℚ)) * w,
         y + h - 5 - ((data.get ⟨i, hi⟩).amplitude / fftMaxAmplitude data) * (h - 10))
    ∧ fftMaxAmplitude data ≠ 0
    ∧ (fftMaxRaw data = 0 → fftMaxAmplitude data = 1)
    ∧ (fftMaxRaw data ≠ 0 → fftMaxAmplitude data = fftMaxRaw data)
    ∧ (1 ≤ i →
        Cmd.line (fftPointPos data x y w h (i - 1)).1
            (fftPointPos data x y w h (i - 1)).2
            (fftPointPos data x y w h i).1
            (fftPointPos data x y w h i).2
          ∈ drawFFTChart data x y w h t c) := by
  refine ⟨?_, ?_, ?_, ?_, ?_⟩
  · unfold fftPointPos
    rw [List.getElem?_eq_getElem hi]
    simp only [Option.map_some', Option.getD_some, List.get_eq_getElem]
    refine Prod.ext ?_ ?_ <;> dsimp only <;> ring
  · unfold fftMaxAmplitude
    split_ifs with h0
    · exact one_ne_zero
    · exact h0
  · intro h0; simp [fftMaxAmplitude, h0]
  · intro h0; simp [fftMaxAmplitude, h0]
  · intro h1
    have hpos : 0 < data.length := Nat.lt_of_le_of_lt (Nat.zero_le i) hi
    have hmem : Cmd.line (fftPointPos data x y w h (i - 1)).1
        (fftPointPos data x y w h (i - 1)).2
        (fftPointPos data x y w h i).1
        (fftPointPos data x y w h i).2 ∈ fftPolyline data x y w h := by
      unfold fftPolyline
      refine List.mem_map.mpr ⟨i, ?_, rfl⟩
      refine List.mem_range'_1.mpr ⟨h1, ?_⟩
      omega
    unfold drawFFTChart
    apply List.mem_append_left
    apply List.mem_append_right
    rw [if_pos hpos]
    exact List.mem_append_right _ hmem

/-- Witness for C3 as amended at the series ((0,0), (500,1)), i = 1. -/
theorem c3_spectrum_point_placement_witness :
    fftPointPos [⟨0, 0⟩, ⟨500, 1⟩] 0 0 100 80 1 = ((50 : ℚ), (5 : ℚ))
    ∧ Cmd.line (fftPointPos [⟨0, 0⟩, ⟨500, 1⟩] 0 0 100 80 0).1
        (fftPointPos [⟨0, 0⟩, ⟨500, 1⟩] 0 0 100 80 0).2
        (fftPointPos [⟨0, 0⟩, ⟨500, 1⟩] 0 0 100 80 1).1
        (fftPointPos [⟨0, 0⟩, ⟨500, 1⟩] 0 0 100 80 1).2
      ∈ drawFFTChart [⟨0, 0⟩, ⟨500, 1⟩] 0 0 100 80 "FFT" ⟨59, 130, 246⟩ := by
  constructor
  · refine ((c3_spectrum_point_placement [⟨0, 0⟩, ⟨500, 1⟩] 0 0 100 80 "FFT"
      ⟨59, 130, 246⟩ 1 (by decide)).1).trans ?_
    simp [fftMaxAmplitude, fftMaxRaw]
    norm_num
  · exact (c3_spectrum_point_placement [⟨0, 0⟩, ⟨500, 1⟩] 0 0 100 80 "FFT"
      ⟨59, 130, 246⟩ 1 (by decide)).2.2.2.2 (by decide)

/-- C5 counterexample: on a standard panel (origin (0,0), width 100,
height 80) with an empty series, the renderer draws 4 horizontal and 9
vertical grid lines — the loops run `i = 1..4` and `i = 1..9` — not the 5
and 10 the claim states. -/
theorem c5_counterexample_grid_count :
    (drawFFTChart [] 0 0 100 80 "T" ⟨0, 0, 0⟩).countP isHorizLineCmd = 4
    ∧ (drawFFTChart [] 0 0 100 80 "T" ⟨0, 0, 0⟩).countP isVertLineCmd = 9
    ∧ (4 : Nat) ≠ 5 ∧ (9 : Nat) ≠ 10 := by
  refine ⟨?_, ?_, by decide, by decide⟩ <;>
    norm_num [drawFFTChart, hGridLines, vGridLines, fftPolyline, List.range',
      isHorizLineCmd, isVertLineCmd,
      List.countP_cons, List.countP_append, List.countP_nil]

/-- C5 as amended: rendering an empty series is total and draws the
background panel, the border, the title, exactly 4 horizontal and 9
vertical grid lines (13 line commands in total, so no polyline segment at
all), and the axis and tick labels. -/
theorem c5_empty_series_rendering (x y w h : ℚ) (t : String) (c : Color)
    (hw : w ≠ 0) (hh : h ≠ 0) :
    (drawFFTChart [] x y w h t c).countP isLineCmd = 13
    ∧ (drawFFTChart [] x y w h t c).countP isHorizLineCmd = 4
    ∧ (drawFFTChart [] x y w h t c).countP isVertLineCmd = 9
    ∧ fftPolyline [] x y w h = []
    ∧ Cmd.fillRect x y w h ∈ drawFFTChart [] x y w h t c
    ∧ Cmd.strokeRect x y w h ∈ drawFFTChart [] x y w h t c
    ∧ Cmd.text t (x + 5) (y - 3) ∈ drawFFTChart [] x y w h t c
    ∧ Cmd.text "Frequency (Hz)" (x + w / 2) (y + h + 5) ∈ drawFFTChart [] x y w h t c
    ∧ Cmd.text "Vel" (x - 3) (y + h / 2) ∈ drawFFTChart [] x y w h t c
    ∧ Cmd.text "0" x (y + h + 3) ∈ drawFFTChart [] x y w h t c
    ∧ Cmd.text "500" (x + w / 2) (y + h + 3) ∈ drawFFTChart [] x y w h t c
    ∧ Cmd.text "1000" (x + w) (y + h + 3) ∈ drawFFTChart [] x y w h t c := by
  refine ⟨?_, ?_, ?_, rfl, ?_, ?_, ?_, ?_, ?_, ?_, ?_, ?_⟩
  · simp only [drawFFTChart, hGridLines, vGridLines, fftPolyline, List.range',
      List.map_cons, List.map_nil, List.countP_append, List.countP_cons,
      List.countP_nil, isLineCmd_line]
    simp [isLineCmd]
  · simp only [drawFFTChart, hGridLines, vGridLines, fftPolyline, List.range',
      List.map_cons, List.map_nil, List.countP_append, List.countP_cons,
      List.countP_nil, isHorizLineCmd_line]
    simp [hw, hh, self_eq_add_right, isHorizLineCmd]
  · simp only [drawFFTChart, hGridLines, vGridLines, fftPolyline, List.range',
      List.map_cons, List.map_nil, List.countP_append, List.countP_cons,
      List.countP_nil, isVertLineCmd_line]
    simp [hw, hh, self_eq_add_right, isVertLineCmd]
  all_goals simp [drawFFTChart, hGridLines, vGridLines, fftPolyline, List.range']

/-- Witness for C5 as amended on the concrete panel used by the report
(origin (17, 45), width 171, height 80). -/
theorem c5_empty_series_rendering_witness :
    (drawFFTChart [] 17 45 171 80 "FFT Spectrum" ⟨59, 130, 246⟩).countP isLineCmd = 13
    ∧ Cmd.fillRect 17 45 171 80 ∈ drawFFTChart [] 17 45 171 80 "FFT Spectrum" ⟨59, 130, 246⟩ := by
  have h := c5_empty_series_rendering 17 45 171 80 "FFT Spectrum" ⟨59, 130, 246⟩
    (by norm_num) (by norm_num)
  exact ⟨h.1, h.2.2.2.2.1⟩

/-! Chart gallery pagination, from the FFT chart pages loop of
`generatePDFReport`: bearings outer, axes `['H', 'V', 'A']` inner, a new
page whenever the 0-based `chartIndex` is even. -/

/-- Sensing axis, the `['H', 'V', 'A']` loop constants. -/
inductive Axis where
  | H | V | A
deriving DecidableEq, Repr

/-- The fixed inner-loop axis order `['H', 'V', 'A']`. -/
def axes : List Axis := [Axis.H, Axis.V, Axis.A]

/-- Bearing record as consumed by the report generator: identity and
status fields, all optional. -/
structure BearingRecord where
  _id : Option String := none
  bearingId : Option String := none
  statusName : Option String := none
  status : Option String := none
deriving DecidableEq, Repr

/-- The chart panels of the gallery in emission order: bearings in the
outer loop, axes in the fixed inner order. -/
def galleryPanels (bearings : List BearingRecord) : List (BearingRecord × Axis) :=
  bearings.flatMap (fun b => axes.map (fun a => (b, a)))

/-- State of the gallery loop: the running `chartIndex`, the number of
`pdf.addPage()` calls so far, and for each panel drawn its 0-based chart
index and its 1-based gallery page. -/
structure GalleryState where
  chartIndex : Nat
  pagesStarted : Nat
  placements : List (Nat × Nat)
deriving DecidableEq, Repr

/-- One iteration of the inner gallery loop: `if (chartIndex % 2 === 0)
pdf.addPage(); ...draw...; chartIndex++`. -/
def placeChartPanel (st : GalleryState) : GalleryState :=
  let st1 := if st.chartIndex % 2 = 0 then
    { st with pagesStarted := st.pagesStarted + 1 } else st
  { st1 with
    placements := st1.placements ++ [(st1.chartIndex, st1.pagesStarted)]
    chartIndex := st1.chartIndex + 1 }

/-- The whole gallery loop run over a panel list, starting from index 0
with no pages added. -/
def runGallery (panels : List α) : GalleryState :=
  panels.foldl (fun st _ => placeChartPanel st) ⟨0, 0, []⟩

/-- Closed form of the gallery state after n panels. -/
def galleryStateAfter (n : Nat) : GalleryState :=
  ⟨n, (n + 1) / 2, (List.range n).map (fun i => (i, i / 2 + 1))⟩

lemma placeChartPanel_galleryStateAfter (n : Nat) :
    placeChartPanel (galleryStateAfter n) = galleryStateAfter (n + 1) := by
  by_cases hn : n % 2 = 0
  · simp only [placeChartPanel, galleryStateAfter, hn, reduceIte,
      List.range_succ, List.map_append, List.map_cons, List.map_nil,
      GalleryState.mk.injEq]
    refine ⟨trivial, by omega, ?_⟩
    have h : (n + 1) / 2 + 1 = n / 2 + 1 := by omega
    rw [h]
  · simp only [placeChartPanel, galleryStateAfter, hn, reduceIte,
      List.range_succ, List.map_append, List.map_cons, List.map_nil,
      GalleryState.mk.injEq]
    refine ⟨trivial, by omega, ?_⟩
    have h : (n + 1) / 2 = n / 2 + 1 := by omega
    rw [h]

lemma foldl_placeChartPanel (l : List α) :
    ∀ n : Nat, l.foldl (fun st _ => placeChartPanel st) (galleryStateAfter n)
      = galleryStateAfter (n + l.length) := by
  induction l with
  | nil => intro n; simp
  | cons a l ih =>
    intro n
    rw [List.foldl_cons, placeChartPanel_galleryStateAfter, ih (n + 1)]
    congr 1
    simp only [List.length_cons]
    omega

lemma runGallery_eq (panels : List α) :
    runGallery panels = galleryStateAfter panels.length := by
  have h := foldl_placeChartPanel panels 0
  simpa [runGallery, galleryStateAfter] using h

lemma length_bind_axes (l : List α) (f : α → Axis → β) :
    (l.flatMap (fun b => axes.map (f b))).length = 3 * l.length := by
  induction l with
  | nil => rfl
  | cons b l ih =>
    simp only [List.flatMap_cons, List.length_append, ih]
    simp [axes]
    omega

lemma getElem_bind_axes (l : List α) (f : α → Axis → β) :
    ∀ (i j : Nat) (hi : i < l.length) (hj : j < 3),
      (l.flatMap (fun b => axes.map (f b)))[3 * i + j]?
        = some (f (l.get ⟨i, hi⟩) (axes.get ⟨j, hj⟩)) := by
  induction l with
  | nil => intro i j hi _; exact absurd hi (Nat.not_lt_zero i)
  | cons b l ih =>
    intro i j hi hj
    rw [List.flatMap_cons]
    match i with
    | 0 =>
      have hlt : 3 * 0 + j < (axes.map (f b)).length := by
        simp [axes]; omega
      rw [List.getElem?_append, if_pos hlt]
      interval_cases j <;> rfl
    | i + 1 =>
      have hge : (axes.map (f b)).length ≤ 3 * (i + 1) + j := by
        simp [axes]; omega
      rw [List.getElem?_append, if_neg (Nat.not_lt.mpr hge)]
      have harith : 3 * (i + 1) + j - (axes.map (f b)).length = 3 * i + j := by
        simp [axes]; omega
      rw [harith]
      exact ih i j (Nat.lt_of_succ_lt_succ hi) hj

/-- C2: the gallery enumerates the N = 3·B panels bearings-outer /
axes-inner (panel 3i+j is bearing i with axis j of H, V, A); running the
loop starts exactly ⌈N/2⌉ pages ((N+1)/2 in integer arithmetic); the
panel with 0-based index i lands on gallery page i/2 + 1, which is page k
exactly for the 1-based positions 2k-1 and 2k. -/
theorem c2_gallery_pagination (bearings : List BearingRecord) :
    (galleryPanels bearings).length = 3 * bearings.length
    ∧ (∀ (i j : Nat) (hi : i < bearings.length) (hj : j < 3),
        (galleryPanels bearings)[3 * i + j]?
          = some (bearings.get ⟨i, hi⟩, axes.get ⟨j, hj⟩))
    ∧ (runGallery (galleryPanels bearings)).pagesStarted
        = (3 * bearings.length + 1) / 2
    ∧ (∀ i : Nat, i < 3 * bearings.length →
        (runGallery (galleryPanels bearings)).placements[i]? = some (i, i / 2 + 1))
    ∧ (∀ i k : Nat, i / 2 + 1 = k ↔ (i + 1 = 2 * k - 1 ∨ i + 1 = 2 * k)) := by
  have hlen : (galleryPanels bearings).length = 3 * bearings.length :=
    length_bind_axes bearings _
  refine ⟨hlen, ?_, ?_, ?_, ?_⟩
  · intro i j hi hj
    exact getElem_bind_axes bearings _ i j hi hj
  · rw [runGallery_eq, hlen]
    rfl
  · intro i hilt
    rw [runGallery_eq, hlen]
    simp only [galleryStateAfter]
    rw [List.getElem?_map, List.getElem?_range hilt]
    rfl
  · intro i k
    omega

/-- Witness for C2 on a two-bearing machine: 6 panels, 3 pages; the 4th
panel (0-based index 3) is bearing 1 (0-based) with axis V and sits on
page 2. -/
theorem c2_gallery_pagination_witness :
    (galleryPanels [{ _id := some "b1" }, { _id := some "b2" }]).length = 6
    ∧ (galleryPanels [{ _id := some "b1" }, { _id := some "b2" }])[3 * 1 + 1]?
        = some ({ _id := some "b2" }, Axis.V)
    ∧ (runGallery (galleryPanels [{ _id := some "b1" }, { _id := some "b2" }])).pagesStarted = 3
    ∧ (runGallery (galleryPanels [{ _id := some "b1" }, { _id := some "b2" }])).placements[3]?
        = some (3, 2)
    ∧ (3 / 2 + 1 = 2 ↔ (3 + 1 = 2 * 2 - 1 ∨ 3 + 1 = 2 * 2)) := by
  have h := c2_gallery_pagination [{ _id := some "b1" }, { _id := some "b2" }]
  exact ⟨h.1, h.2.1 1 1 (by decide) (by decide), h.2.2.1, h.2.2.2.1 3 (by decide),
    h.2.2.2.2 3 2⟩

/-! Machine records and the status defaults used by `generatePDFReport`. -/

/-- Machine record as consumed by the report generator; every field is
optional on input. -/
structure MachineRecord where
  _id : Option String := none
  machineId : Option String := none
  name : Option String := none
  machineName : Option String := none
  statusName : Option String := none
  status : Option String := none
  customerId : Option String := none
  areaId : Option String := none
  type : Option String := none
  date : Option String := none
deriving DecidableEq, Repr

/-- Source `(machine.statusName || machine.status || 'normal').toLowerCase()`. -/
def machineDisplayStatus (m : MachineRecord) : String :=
  jsToLower (jsOr m.statusName (jsOr m.status "normal"))

/-- Source `(b.statusName || b.status || 'satisfactory').toLowerCase()`,
the bearing-status fallback used for the bearing table rows and for the
chart multiplier. -/
def bearingDisplayStatus (b : BearingRecord) : String :=
  jsToLower (jsOr b.statusName (jsOr b.status "satisfactory"))

/-- C9 counterexample: a bearing with no status at all is displayed and
classified as "satisfactory", severity level 2, not the claimed level 1 —
the bearing fallback label in the source is 'satisfactory', not 'normal'. -/
theorem c9_counterexample_bearing_default :
    bearingDisplayStatus {} = "satisfactory"
    ∧ getStatusSeverity (some (bearingDisplayStatus {})) = Severity.B
    ∧ (getStatusSeverity (some (bearingDisplayStatus {}))).level = 2
    ∧ (2 : Nat) ≠ 1 := by
  refine ⟨by decide, by decide, by decide, by decide⟩

/-- C9 as amended: classification is total (exactly one severity per
label); a machine with a missing or empty status defaults to "normal"
(level 1), but a bearing with a missing or empty status defaults to
"satisfactory" (level 2); any non-empty unrecognized label classifies to
level 1 wherever `getStatusSeverity` is applied. -/
theorem c9_severity_assignment :
    (∀ status : Option String, ∃! sev : Severity, getStatusSeverity status = sev)
    ∧ (∀ m : MachineRecord,
        (m.statusName = none ∨ m.statusName = some "") →
        (m.status = none ∨ m.status = some "") →
        machineDisplayStatus m = "normal"
        ∧ getStatusSeverity (some (machineDisplayStatus m)) = Severity.A
        ∧ (getStatusSeverity (some (machineDisplayStatus m))).level = 1)
    ∧ (∀ b : BearingRecord,
        (b.statusName = none ∨ b.statusName = some "") →
        (b.status = none ∨ b.status = some "") →
        bearingDisplayStatus b = "satisfactory"
        ∧ getStatusSeverity (some (bearingDisplayStatus b)) = Severity.B
        ∧ (getStatusSeverity (some (bearingDisplayStatus b))).level = 2)
    ∧ (∀ s : String, jsToLower s ∉ recognizedTokens →
        getStatusSeverity (some s) = Severity.A) := by
  refine ⟨?_, ?_, ?_, ?_⟩
  · intro status
    exact ⟨getStatusSeverity status, rfl, fun y h => h.symm⟩
  · intro m h1 h2
    have hd : machineDisplayStatus m = "normal" := by
      unfold machineDisplayStatus
      rcases h1 with h1 | h1 <;> rcases h2 with h2 | h2 <;>
        rw [h1, h2] <;> rfl
    refine ⟨hd, ?_, ?_⟩ <;> rw [hd] <;> decide
  · intro b h1 h2
    have hd : bearingDisplayStatus b = "satisfactory" := by
      unfold bearingDisplayStatus
      rcases h1 with h1 | h1 <;> rcases h2 with h2 | h2 <;>
        rw [h1, h2] <;> rfl
    refine ⟨hd, ?_, ?_⟩ <;> rw [hd] <;> decide
  · intro s h
    exact getStatusSeverity_unrecognized s h

/-- Witness for C9 as amended: the all-defaults machine and bearing and a
concrete unrecognized label. -/
theorem c9_severity_assignment_witness :
    machineDisplayStatus {} = "normal"
    ∧ bearingDisplayStatus {} = "satisfactory"
    ∧ getStatusSeverity (some (bearingDisplayStatus {})) = Severity.B
    ∧ getStatusSeverity (some "faulty") = Severity.A :=
  ⟨(c9_severity_assignment.2.1 {} (Or.inl rfl) (Or.inl rfl)).1,
   (c9_severity_assignment.2.2.1 {} (Or.inl rfl) (Or.inl rfl)).1,
   (c9_severity_assignment.2.2.1 {} (Or.inl rfl) (Or.inl rfl)).2.1,
   c9_severity_assignment.2.2.2 "faulty" (by decide)⟩

/-! Synthetic data generator, from `generateFFTData` and
`generateMockBearingData`. -/

/-- Amplitude of one synthetic spectrum point, the body of the
`generateFFTData` loop: a random base `Math.random() * 0.02 * mult`, then
one conditional peak addition per characteristic frequency. -/
def generateFFTAmplitude (mult freq rnd : ℚ) : ℚ :=
  let a0 := rnd * 0.02 * mult
  let a1 := if |freq - 50| < 5 then a0 + 0.3 * mult else a0
  let a2 := if |freq - 100| < 5 then a1 + 0.15 * mult else a1
  let a3 := if |freq - 150| < 5 then a2 + 0.08 * mult else a2
  let a4 := if |freq - 180| < 10 then a3 + 0.05 * mult else a3
  if |freq - 360| < 10 then a4 + 0.03 * mult else a4

/-- The five characteristic peaks asserted by the spec, as
(center, half-window, coefficient), for comparison with
`generateFFTAmplitude`. -/
def specPeaks : List (ℚ × ℚ × ℚ) :=
  [(50, 5, 0.3), (100, 5, 0.15), (150, 5, 0.08), (180, 10, 0.05), (360, 10, 0.03)]

/-- Spec-shaped amplitude: randomized base plus the sum of the five peak
contributions, for comparison with `generateFFTAmplitude`. -/
def specPeakAmplitude (mult freq rnd : ℚ) : ℚ :=
  rnd * 0.02 * mult
    + (specPeaks.map (fun p => if |freq - p.1| < p.2.1 then p.2.2 * mult else 0)).sum

lemma generateFFTAmplitude_eq_spec (mult freq rnd : ℚ) :
    generateFFTAmplitude mult freq rnd = specPeakAmplitude mult freq rnd := by
  unfold generateFFTAmplitude specPeakAmplitude specPeaks
  simp only [List.map_cons, List.map_nil, List.sum_cons, List.sum_nil]
  split_ifs <;> ring

/-- Source `generateFFTData(numPoints, amplitudeMultiplier)`: `numPoints`
points with `freq = (i / numPoints) * 1000` and the randomized, peaked
amplitude; the `i`-th `Math.random()` result is supplied as `r i`. -/
def generateFFTData (numPoints : Nat) (amplitudeMultiplier : ℚ) (r : Nat → ℚ) :
    List FreqPoint :=
  (List.range numPoints).map (fun i : Nat =>
    let freq : ℚ := ((i : ℚ) / (numPoints : ℚ)) * 1000
    ⟨freq, generateFFTAmplitude amplitudeMultiplier freq (r i)⟩)

/-- Source severity multiplier of `generateMockBearingData`:
`machine.status === 'unacceptable' ? 2.5 : 'alert' ? 1.8 :
'satisfactory' ? 1.2 : 1.0`. -/
def statusMultiplier (status : Option String) : ℚ :=
  if status = some "unacceptable" then 2.5
  else if status = some "alert" then 1.8
  else if status = some "satisfactory" then 1.2
  else 1

/-- The fixed mock bearing list of `generateMockBearingData`. -/
def mockBearingNames : List String :=
  ["Motor DE", "Motor NDE", "Pump DE", "Pump NDE"]

/-- Per-axis scalar metrics (vel mm/s, acc g, env gE).  The source
formats them with `toFixed`; the numeric values are modelled exactly. -/
structure AxisMetrics where
  vel : ℚ
  acc : ℚ
  env : ℚ
deriving DecidableEq, Repr

/-- One synthesized bearing of `generateMockBearingData`. -/
structure MockBearing where
  bearingName : String
  date : String
  sr : Nat
  metrics : Axis → AxisMetrics
  fft : Axis → List FreqPoint

/-- Source `generateMockBearingData(machine)`: four fixed mock bearings;
per bearing a severity multiplier from the machine status, randomized
base magnitudes, per-axis vel/acc/env scalars and one 200-point FFT
series per axis.  `r idx k` is the k-th `Math.random()` result drawn for
bearing `idx`, in source call order (3 base draws, 9 metric draws, then
200 per axis series). -/
def generateMockBearingData (machine : MachineRecord) (r : Nat → Nat → ℚ)
    (today : String) : List MockBearing :=
  mockBearingNames.mapIdx (fun idx name =>
    let mult := statusMultiplier machine.status
    let baseVel := (0.5 + r idx 0 * 1.5) * mult
    let baseAcc := (0.1 + r idx 1 * 0.3) * mult
    let baseEnv := (0.05 + r idx 2 * 0.15) * mult
    { bearingName := name
      date := jsOr machine.date today
      sr := 20000
      metrics := fun a =>
        match a with
        | Axis.H => ⟨baseVel + r idx 3 * 0.5, baseAcc + r idx 4 * 0.1,
            baseEnv + r idx 5 * 0.05⟩
        | Axis.V => ⟨baseVel + r idx 6 * 0.8, baseAcc + r idx 7 * 0.15,
            baseEnv + r idx 8 * 0.08⟩
        | Axis.A => ⟨baseVel + r idx 9 * 0.3, baseAcc + r idx 10 * 0.08,
            baseEnv + r idx 11 * 0.03⟩
      fft := fun a =>
        match a with
        | Axis.H => generateFFTData 200 mult (fun i => r idx (12 + i))
        | Axis.V => generateFFTData 200 mult (fun i => r idx (212 + i))
        | Axis.A => generateFFTData 200 mult (fun i => r idx (412 + i)) })

/-- C8: the severity multiplier ranges from 1.0 (Normal, also the default)
up to 2.5 (Unacceptable); `generateFFTData` yields one point per index
with frequency `(i/N)*1000` in [0, 1000) and amplitude equal to the
randomized base plus exactly the five characteristic peak contributions
at ≈50, 100, 150, 180 and 360 Hz; and every synthesized bearing carries
one such 200-point series per axis, scaled by the machine's multiplier. -/
theorem c8_synthetic_data_generator :
    (∀ status : Option String,
      1 ≤ statusMultiplier status ∧ statusMultiplier status ≤ 2.5
      ∧ (status = some "normal" → statusMultiplier status = 1)
      ∧ (status = some "unacceptable" → statusMultiplier status = 2.5))
    ∧ (∀ (n : Nat) (mult : ℚ) (r : Nat → ℚ), (generateFFTData n mult r).length = n)
    ∧ (∀ (n i : Nat) (mult : ℚ) (r : Nat → ℚ), i < n →
        (generateFFTData n mult r)[i]?
          = some ⟨((i : ℚ) / (n : ℚ)) * 1000,
              specPeakAmplitude mult (((i : ℚ) / (n : ℚ)) * 1000) (r i)⟩
        ∧ 0 ≤ ((i : ℚ) / (n : ℚ)) * 1000
        ∧ ((i : ℚ) / (n : ℚ)) * 1000 < 1000)
    ∧ (∀ (m : MachineRecord) (r : Nat → Nat → ℚ) (today : String),
        ∀ b ∈ generateMockBearingData m r today, ∀ a : Axis,
          (∃ ra, b.fft a = generateFFTData 200 (statusMultiplier m.status) ra)
          ∧ (b.fft a).length = 200) := by
  have hlen : ∀ (n : Nat) (mult : ℚ) (r : Nat → ℚ),
      (generateFFTData n mult r).length = n := by
    intro n mult r
    simp [generateFFTData]
  refine ⟨?_, hlen, ?_, ?_⟩
  · intro status
    have hb : statusMultiplier status = 2.5 ∨ statusMultiplier status = 1.8
        ∨ statusMultiplier status = 1.2 ∨ statusMultiplier status = 1 := by
      unfold statusMultiplier
      split_ifs <;> simp
    refine ⟨?_, ?_, ?_, ?_⟩
    · rcases hb with h | h | h | h <;> rw [h] <;> norm_num
    · rcases hb with h | h | h | h <;> rw [h] <;> norm_num
    · rintro rfl; rfl
    · rintro rfl; rfl
  · intro n i mult r hi
    have hn : 0 < n := Nat.lt_of_le_of_lt (Nat.zero_le i) hi
    refine ⟨?_, ?_, ?_⟩
    · unfold generateFFTData
      rw [List.getElem?_map, List.getElem?_range hi]
      simp only [Option.map_some']
      rw [generateFFTAmplitude_eq_spec]
    · positivity
    · have h1 : (i : ℚ) < (n : ℚ) := by exact_mod_cast hi
      have h2 : (0 : ℚ) < (n : ℚ) := by exact_mod_cast hn
      have h3 : (i : ℚ) / (n : ℚ) < 1 := (div_lt_one h2).mpr h1
      linarith
  · intro m r today b hb a
    unfold generateMockBearingData at hb
    rw [List.mapIdx_eq_enum_map] at hb
    obtain ⟨⟨idx, name⟩, -, rfl⟩ := List.mem_map.mp hb
    cases a
    · exact ⟨⟨fun i => r idx (12 + i), rfl⟩, hlen 200 _ _⟩
    · exact ⟨⟨fun i => r idx (212 + i), rfl⟩, hlen 200 _ _⟩
    · exact ⟨⟨fun i => r idx (412 + i), rfl⟩, hlen 200 _ _⟩

/-- Witness for C8: the unacceptable multiplier, the 50 Hz peak point of a
2-point series with a zero random stream, and the H series of the first
mock bearing of an alert machine. -/
theorem c8_synthetic_data_generator_witness :
    statusMultiplier (some "unacceptable") = 2.5
    ∧ (generateFFTData 2 1 (fun _ => 0))[0]?
        = some ⟨0, specPeakAmplitude 1 0 0⟩
    ∧ (∀ b ∈ generateMockBearingData { status := some "alert" } (fun _ _ => 0) "2024-06-01",
        (b.fft Axis.H).length = 200) := by
  refine ⟨?_, ?_, ?_⟩
  · exact (c8_synthetic_data_generator.1 (some "unacceptable")).2.2.2 rfl
  · have h := (c8_synthetic_data_generator.2.2.1 2 0 1 (fun _ => 0) (by decide)).1
    rw [h]
    norm_num [specPeakAmplitude, specPeaks, FreqPoint.mk.injEq]
  · intro b hb
    exact (c8_synthetic_data_generator.2.2.2 { status := some "alert" }
      (fun _ _ => 0) "2024-06-01" b hb Axis.H).2

/-! Data tables: the vibration data table of the whole-machine report
(one row per mock bearing × axis) and the bearing list table of the
bearing report (one row per bearing). -/

/-- One row of the vibration data table (Point Name, Date, Axis,
Vel, Acc, Env, Temp). -/
structure DataRow where
  pointName : String
  date : String
  axis : Axis
  vel : ℚ
  acc : ℚ
  env : ℚ
  temp : String
deriving Repr

/-- Row built for one (bearing, axis) pair: name and date only on the
first (H) axis row, metrics from that bearing's per-axis scalars,
temperature column fixed to "-". -/
def mkDataRow (b : MockBearing) (a : Axis) : DataRow :=
  { pointName := if a = Axis.H then b.bearingName else ""
    date := if a = Axis.H then b.date else ""
    axis := a
    vel := (b.metrics a).vel
    acc := (b.metrics a).acc
    env := (b.metrics a).env
    temp := "-" }

/-- The vibration data table rows: `bearingsData.forEach(bearing =>
['H','V','A'].forEach(axis => ...))`. -/
def dataTableRows (bearingsData : List MockBearing) : List DataRow :=
  bearingsData.flatMap (fun b => axes.map (mkDataRow b))

/-- One row of the bearing list table of the bearing report
(Bearing ID, Status, Vel, Acc, Temp). -/
structure BearingRow where
  bearingId : String
  status : String
  severity : Severity
  vel : ℚ
  acc : ℚ
  temp : ℚ
deriving DecidableEq, Repr

/-- The bearing table rows of `generatePDFReport` in the bearing report:
one row per bearing, id `b._id || b.bearingId || 'Bearing-<n>'` truncated
to 25 characters, the satisfactory-defaulted display status with its
severity, and randomized vel/acc/temp scalars (`r bIdx k` is the k-th
`Math.random()` draw of row `bIdx`). -/
def bearingTableRows (bearings : List BearingRecord) (r : Nat → Nat → ℚ) :
    List BearingRow :=
  bearings.mapIdx (fun bIdx b =>
    let bearingId := jsOr b._id (jsOr b.bearingId ("Bearing-" ++ toString (bIdx + 1)))
    let bearingStatus := bearingDisplayStatus b
    { bearingId := jsSubstring bearingId 25
      status := bearingStatus
      severity := getStatusSeverity (some bearingStatus)
      vel := 1.5 + r bIdx 0 * 2
      acc := 0.1 + r bIdx 1 * 0.2
      temp := 25 + r bIdx 2 * 10 })

/-- C6 counterexample: for a machine with exactly 2 bearings, the
whole-machine report's data table has 12 rows (3 per bearing of the fixed
4-element mock list, which ignores the machine's own bearings), and the
bearing report's table has 2 rows (one per bearing, not one per
bearing × axis) — neither table has the claimed 6 rows. -/
theorem c6_counterexample_row_count :
    ([({} : BearingRecord), ({} : BearingRecord)].length = 2)
    ∧ (dataTableRows (generateMockBearingData
        { machineId := some "M1", status := some "alert", type := some "ONLINE" }
        (fun _ _ => 0) "2024-06-01")).length = 12
    ∧ (bearingTableRows [{}, {}] (fun _ _ => 0)).length = 2
    ∧ (12 : Nat) ≠ 6 ∧ (2 : Nat) ≠ 6 := by
  refine ⟨rfl, rfl, rfl, by decide, by decide⟩

/-- C6 as amended: the vibration data table emits one row per
(bearing × axis) pair over the fixed 4-element mock bearing list — always
12 rows, regardless of the machine's bearings — with row 3i+j carrying
the vel/acc/env metrics of mock bearing i on axis j of H, V, A; the
bearing report's table instead emits exactly one row per actual bearing. -/
theorem c6_data_table_rows :
    (∀ (m : MachineRecord) (r : Nat → Nat → ℚ) (today : String),
      (dataTableRows (generateMockBearingData m r today)).length = 12)
    ∧ (∀ bd : List MockBearing, (dataTableRows bd).length = 3 * bd.length)
    ∧ (∀ (bd : List MockBearing) (i j : Nat) (hi : i < bd.length) (hj : j < 3),
        (dataTableRows bd)[3 * i + j]?
          = some (mkDataRow (bd.get ⟨i, hi⟩) (axes.get ⟨j, hj⟩)))
    ∧ (∀ (bearings : List BearingRecord) (r : Nat → Nat → ℚ),
        (bearingTableRows bearings r).length = bearings.length) := by
  refine ⟨?_, ?_, ?_, ?_⟩
  · intro m r today
    show (dataTableRows (generateMockBearingData m r today)).length = 12
    rw [dataTableRows, length_bind_axes]
    simp [generateMockBearingData, mockBearingNames]
  · intro bd
    exact length_bind_axes bd mkDataRow
  · intro bd i j hi hj
    exact getElem_bind_axes bd mkDataRow i j hi hj
  · intro bearings r
    simp [bearingTableRows]

/-- Witness for C6 as amended: second mock bearing, V axis, row index 4. -/
theorem c6_data_table_rows_witness :
    (dataTableRows (generateMockBearingData {} (fun _ _ => 0) "d")).length = 12
    ∧ (dataTableRows (generateMockBearingData {} (fun _ _ => 0) "d"))[3 * 1 + 1]?
        = some (mkDataRow ((generateMockBearingData {} (fun _ _ => 0) "d").get
            ⟨1, by decide⟩) (axes.get ⟨1, by decide⟩))
    ∧ (bearingTableRows [{}] (fun _ _ => 0)).length = 1 := by
  refine ⟨c6_data_table_rows.1 {} (fun _ _ => 0) "d",
    c6_data_table_rows.2.2.1 (generateMockBearingData {} (fun _ _ => 0) "d") 1 1
      (by decide) (by decide),
    c6_data_table_rows.2.2.2 [{}] (fun _ _ => 0)⟩

/-! Output filename, from the `fileName` construction of the bearing
report's `generatePDFReport`. -/

/-- A character kept unchanged by the filename regex class
`[a-zA-Z0-9()-]`. -/
def keepFileNameChar (c : Char) : Bool :=
  c.isAlphanum || c = '(' || c = ')' || c = '-'

/-- Source `machineName.replace(/[^a-zA-Z0-9()-]/g, '_')`: every character
outside the class is replaced by an underscore. -/
def sanitizeMachineName (s : String) : String :=
  String.mk (s.data.map (fun c => if keepFileNameChar c then c else '_'))

/-- Sanitization as the spec words it (characters outside the class
removed, i.e. dropped), for comparison with `sanitizeMachineName`. -/
def specSanitizeRemove (s : String) : String :=
  String.mk (s.data.filter keepFileNameChar)

/-- Source bearing scope: `isSingleBearing && bearing ?
(bearing._id || bearing.bearingId || 'bearing').substring(0, 20) :
'all_bearings'`. -/
def bearingScope (isSingleBearing : Bool) (bearing : Option BearingRecord) : String :=
  if isSingleBearing then
    match bearing with
    | some b => jsSubstring (jsOr b._id (jsOr b.bearingId "bearing")) 20
    | none => "all_bearings"
  else "all_bearings"

/-- Source
`` `Report_${machineName.replace(...)}_${bearingName}_${date}.pdf` ``. -/
def reportFileName (machineName : String) (isSingleBearing : Bool)
    (bearing : Option BearingRecord) (date : String) : String :=
  "Report_" ++ sanitizeMachineName machineName ++ "_"
    ++ bearingScope isSingleBearing bearing ++ "_" ++ date ++ ".pdf"

/-- C7 counterexample: for machine name "Pump-01/X" in all-bearings mode
on 2024-06-01, the code produces
"Report_Pump-01_X_all_bearings_2024-06-01.pdf" — the slash is replaced by
an underscore — whereas removing (deleting) the characters outside
[a-zA-Z0-9()-], as the claim states, would give "Pump-01X" and a
different filename. -/
theorem c7_counterexample_filename :
    reportFileName "Pump-01/X" false none "2024-06-01"
      = "Report_Pump-01_X_all_bearings_2024-06-01.pdf"
    ∧ specSanitizeRemove "Pump-01/X" = "Pump-01X"
    ∧ sanitizeMachineName "Pump-01/X" ≠ specSanitizeRemove "Pump-01/X"
    ∧ "Report_" ++ specSanitizeRemove "Pump-01/X" ++ "_all_bearings_2024-06-01.pdf"
        ≠ reportFileName "Pump-01/X" false none "2024-06-01" := by
  refine ⟨by decide, by decide, by decide, by decide⟩

/-- C7 as amended: the filename is
`Report_<sanitizedMachineName>_<bearingScope>_<date>.pdf`, where the
sanitized name replaces (not removes) every character outside
[a-zA-Z0-9()-] with an underscore — so it has the same length as the
machine name and only characters of the class or underscores — and the
scope is "all_bearings" in whole-machine mode (or when no bearing is
supplied) and the bearing identifier truncated to at most 20 characters
in single-bearing mode. -/
theorem c7_filename_format (name date : String) (isSingle : Bool)
    (bearing : Option BearingRecord) :
    reportFileName name isSingle bearing date
      = "Report_" ++ sanitizeMachineName name ++ "_"
          ++ bearingScope isSingle bearing ++ "_" ++ date ++ ".pdf"
    ∧ (sanitizeMachineName name).length = name.length
    ∧ (∀ c ∈ (sanitizeMachineName name).data, keepFileNameChar c ∨ c = '_')
    ∧ (isSingle = false → bearingScope isSingle bearing = "all_bearings")
    ∧ (bearing = none → bearingScope isSingle bearing = "all_bearings")
    ∧ (∀ b : BearingRecord, isSingle = true → bearing = some b →
        bearingScope isSingle bearing
            = jsSubstring (jsOr b._id (jsOr b.bearingId "bearing")) 20
        ∧ (bearingScope isSingle bearing).length ≤ 20) := by
  refine ⟨rfl, ?_, ?_, ?_, ?_, ?_⟩
  · simp only [sanitizeMachineName, String.mk_length, List.length_map]
    rfl
  · intro c hc
    simp only [sanitizeMachineName] at hc
    obtain ⟨a, -, rfl⟩ := List.mem_map.mp hc
    by_cases hk : keepFileNameChar a
    · simp [hk]
    · simp [hk]
  · rintro rfl; rfl
  · rintro rfl
    cases isSingle <;> rfl
  · rintro b rfl rfl
    refine ⟨rfl, ?_⟩
    show (jsSubstring (jsOr b._id (jsOr b.bearingId "bearing")) 20).length ≤ 20
    simp only [jsSubstring, String.mk_length]
    exact le_trans (le_of_eq (List.length_take _ _)) (min_le_left _ _)

/-- Witness for C7 as amended, at the spec's own example inputs and at a
single-bearing invocation with a long bearing id. -/
theorem c7_filename_format_witness :
    bearingScope false none = "all_bearings"
    ∧ (sanitizeMachineName "Pump-01/X").length = 9
    ∧ (bearingScope true (some { _id := some "0123456789012345678901234" })).length ≤ 20 := by
  refine ⟨(c7_filename_format "Pump-01/X" "2024-06-01" false none).2.2.2.1 rfl,
    ((c7_filename_format "Pump-01/X" "2024-06-01" false none).2.1).trans (by decide),
    ((c7_filename_format "m" "2024-06-01" true
      (some { _id := some "0123456789012345678901234" })).2.2.2.2.2
      { _id := some "0123456789012345678901234" } rfl rfl).2⟩

/-! Report assembly, from the bearing report's `generatePDFReport`: every
field access has a default, so any machine record yields a complete
document. -/

/-- Source `machine.name || machine.machineName || 'Unknown Machine'`. -/
def machineDisplayName (m : MachineRecord) : String :=
  jsOr m.name (jsOr m.machineName "Unknown Machine")

/-- The machine details grid of the report, label/value pairs with their
default fallbacks. -/
def reportDetails (m : MachineRecord) : List (String × String) :=
  [("Machine Name", machineDisplayName m),
   ("Machine ID", jsOr m.machineId (jsOr m._id "N/A")),
   ("Customer ID", jsOr m.customerId "N/A"),
   ("Area ID", jsOr m.areaId "N/A"),
   ("Type", jsOr m.type "OFFLINE"),
   ("Standard", "ISO 10816-3")]

/-- Source `isSingleBearing && bearing ? [bearing] : bearings`. -/
def bearingsToReport (isSingleBearing : Bool) (bearing : Option BearingRecord)
    (bearings : List BearingRecord) : List BearingRecord :=
  if isSingleBearing then
    match bearing with
    | some b => [b]
    | none => bearings
  else bearings

/-- The finished report document: displayed status and severity, the
details grid, the bearing table, the chart gallery size, and the output
filename. -/
structure ReportDoc where
  machineName : String
  status : String
  severity : Severity
  details : List (String × String)
  bearingRows : List BearingRow
  galleryPanelCount : Nat
  galleryPages : Nat
  fileName : String

/-- The bearing report's `generatePDFReport`, assembled from the embedded
pieces; total in the machine record, so every record (however sparse)
yields a complete document. -/
def generatePDFReport (machine : MachineRecord) (bearing : Option BearingRecord)
    (bearings : List BearingRecord) (isSingleBearing : Bool)
    (r : Nat → Nat → ℚ) (date : String) : ReportDoc :=
  let machineName := machineDisplayName machine
  let status := machineDisplayStatus machine
  let toReport := bearingsToReport isSingleBearing bearing bearings
  { machineName := machineName
    status := status
    severity := getStatusSeverity (some status)
    details := reportDetails machine
    bearingRows := bearingTableRows toReport r
    galleryPanelCount := (galleryPanels toReport).length
    galleryPages := (runGallery (galleryPanels toReport)).pagesStarted
    fileName := reportFileName machineName isSingleBearing bearing date }

/-- C10: a machine record containing only an id still yields a complete
document — name "Unknown Machine", status "normal" (severity A), every
detail value a placeholder, empty tables and gallery, and a well-formed
filename — and for every machine record whatsoever the details grid has
its 6 rows with non-empty values (each field access falls back to a
default; nothing errors). -/
theorem c10_missing_fields_defaults :
    (∀ (date : String) (r : Nat → Nat → ℚ),
      generatePDFReport { _id := some "M-1" } none [] false r date
        = { machineName := "Unknown Machine"
            status := "normal"
            severity := Severity.A
            details := [("Machine Name", "Unknown Machine"), ("Machine ID", "M-1"),
              ("Customer ID", "N/A"), ("Area ID", "N/A"), ("Type", "OFFLINE"),
              ("Standard", "ISO 10816-3")]
            bearingRows := []
            galleryPanelCount := 0
            galleryPages := 0
            fileName := "Report_Unknown_Machine_all_bearings_" ++ date ++ ".pdf" })
    ∧ (∀ (machine : MachineRecord) (bearing : Option BearingRecord)
        (bearings : List BearingRecord) (isSingle : Bool) (r : Nat → Nat → ℚ)
        (date : String),
        (generatePDFReport machine bearing bearings isSingle r date).details.length = 6
        ∧ ∀ p ∈ (generatePDFReport machine bearing bearings isSingle r date).details,
            p.2 ≠ "") := by
  constructor
  · intro date r
    obtain ⟨l⟩ := date
    rfl
  · intro machine bearing bearings isSingle r date
    refine ⟨rfl, ?_⟩
    intro p hp
    have hdet : (generatePDFReport machine bearing bearings isSingle r date).details
        = reportDetails machine := rfl
    rw [hdet] at hp
    simp only [reportDetails, List.mem_cons, List.not_mem_nil, or_false] at hp
    rcases hp with rfl | rfl | rfl | rfl | rfl | rfl
    · exact jsOr_ne_nil _ _ (jsOr_ne_nil _ _ (by decide))
    · exact jsOr_ne_nil _ _ (jsOr_ne_nil _ _ (by decide))
    · exact jsOr_ne_nil _ _ (by decide)
    · exact jsOr_ne_nil _ _ (by decide)
    · exact jsOr_ne_nil _ _ (by decide)
    · decide

/-- Witness for C10: the id-only document at a fixed date, and a detail
row of the all-defaults record. -/
theorem c10_missing_fields_defaults_witness :
    (generatePDFReport { _id := some "M-1" } none [] false (fun _ _ => 0)
        "2024-06-01").fileName
      = "Report_Unknown_Machine_all_bearings_2024-06-01.pdf"
    ∧ (("Customer ID", "N/A") : String × String).2 ≠ "" := by
  constructor
  · rw [c10_missing_fields_defaults.1 "2024-06-01" (fun _ _ => 0)]
    rfl
  · exact (c10_missing_fields_defaults.2 {} none [] false (fun _ _ => 0)
      "2024-06-01").2 ("Customer ID", "N/A") (by decide)
